import Mathlib

/-!
# Shallow embedding of `src/main.cpp`

The firmware talks to three collaborators that are not part of the repository:
the WiFi driver, the Firebase client and the C/C++ runtime (`rand`, `std::sort`,
`float` arithmetic).  Every call made to them is recorded, in program order, in a
history of `Event`s.  What a collaborator answers is given by an `Env`: each
answer is a function of the whole history so far, so an `Env` can express any
deterministic behaviour of the outside world.

`float` is IEEE-754 binary32 with round-to-nearest-even (`F32`).
-/

namespace Firmware

/-! ## binary32 arithmetic -/

/-- Two to the power `e`, as a rational. -/
def pow2 (e : Int) : ℚ :=
  if 0 ≤ e then ((2 ^ e.toNat : Nat) : ℚ) else 1 / ((2 ^ (-e).toNat : Nat) : ℚ)

/-- Floor of the base-2 logarithm of a natural number (0 for 0 and 1); the first
argument bounds the number of halvings and is always passed the number itself. -/
def log2Nat : Nat → Nat → Nat
  | 0, _ => 0
  | fuel + 1, n => if n < 2 then 0 else log2Nat fuel (n / 2) + 1

/-- The binade of a positive rational `x`: the `e` with `2^e ≤ x < 2^(e+1)`. -/
def binade (x : ℚ) : Int :=
  let e0 : Int := (log2Nat x.num.natAbs x.num.natAbs : Int) - (log2Nat x.den x.den : Int)
  if pow2 e0 ≤ x then e0 else e0 - 1

/-- Round a rational to the nearest integer, ties to the even one. -/
def roundNearestEven (x : ℚ) : Int :=
  let f := x.floor
  let r := x - f
  if r < 1 / 2 then f
  else if 1 / 2 < r then f + 1
  else if f % 2 = 0 then f else f + 1

/-- A value of the C++ type `float` (IEEE-754 binary32): a finite number, an
infinity or a NaN.  The sign of zero is not tracked. -/
inductive F32 where
  | fin (q : ℚ)
  | inf (neg : Bool)
  | nan
deriving DecidableEq

/-- Rounding of an exact real result to binary32, round-to-nearest-even:
24 significant bits, least exponent -126 (below it the spacing stays `2^-149`),
overflow to infinity from `2^128` on. -/
def F32.round (x : ℚ) : F32 :=
  if x = 0 then .fin 0
  else
    let e := max (binade |x|) (-126)
    let ulp := pow2 (e - 23)
    let y := (roundNearestEven (x / ulp) : ℚ) * ulp
    if pow2 128 ≤ |y| then .inf (decide (x < 0)) else .fin y

/-- Conversion `static_cast<float>(n)` of an integer. -/
def F32.ofInt (n : Int) : F32 := F32.round n

/-- Unary minus. -/
def F32.neg : F32 → F32
  | .fin q => .fin (-q)
  | .inf s => .inf (!s)
  | .nan => .nan

/-- The operator `+` on `float`. -/
def F32.add : F32 → F32 → F32
  | .fin a, .fin b => F32.round (a + b)
  | .fin _, .inf s => .inf s
  | .inf s, .fin _ => .inf s
  | .inf s, .inf t => if s = t then .inf s else .nan
  | _, _ => .nan

/-- The operator `-` on `float`. -/
def F32.sub (a b : F32) : F32 := F32.add a (F32.neg b)

/-- The operator `/` on `float`.  A zero divisor is taken as `+0`, which is what
`x - x` yields under round-to-nearest. -/
def F32.div : F32 → F32 → F32
  | .fin a, .fin b =>
    if b = 0 then (if a = 0 then .nan else .inf (decide (a < 0)))
    else F32.round (a / b)
  | .fin _, .inf _ => .fin 0
  | .inf s, .fin b => .inf (s != decide (b < 0))
  | _, _ => .nan

/-- The comparison `<=` on `float` (false when a NaN is involved). -/
def F32.le : F32 → F32 → Bool
  | .fin a, .fin b => decide (a ≤ b)
  | .fin _, .inf s => !s
  | .inf s, .fin _ => s
  | .inf s, .inf t => s || !t
  | _, _ => false

/-- Source lines 46-48.  `RAND_MAX` comes from `<cstdlib>` and the value returned by
`rand()` from the C runtime, so both are arguments.
`low + static_cast<float>(rand()) / (static_cast<float>(RAND_MAX / (high - low)))`:
in `RAND_MAX / (high - low)` the integer is converted to `float` first. -/
def frandom (RAND_MAX : Int) (rand : Int) (low high : F32) : F32 :=
  F32.add low (F32.div (F32.ofInt rand) (F32.div (F32.ofInt RAND_MAX) (F32.sub high low)))

/-! ## data -/

/-- Source lines 12-15, `struct _NetworkConfig`. -/
structure NetworkConfig where
  ssid : String
  password : String
deriving DecidableEq

/-- Source lines 15-18, the compiled-in table `networks[]`. -/
def networks : List NetworkConfig :=
  [⟨"Hermes-IoT", "HermesIOT"⟩, ⟨"WiFi-IoT-123", "TUDOMINUSCULO"⟩]

/-- Source lines 38-44, `struct _Calibration`. -/
structure Calibration where
  low : F32
  high : F32
deriving DecidableEq

/-- Source lines 41-44, the initial value of the global `calibration`. -/
def calibration : Calibration := ⟨.fin 0, .fin 1⟩

/-- What the driver reports for scan index `i` through `WiFi.SSID(i)`,
`WiFi.RSSI(i)`, `WiFi.encryptionType(i)` and `WiFi.BSSIDstr(i)`. -/
structure ScanEntry where
  ssid : String
  rssi : Int
  authMode : Nat
  bssid : String
deriving DecidableEq

/-- Source lines 189-193, the local `struct Candidate`. -/
structure Candidate where
  rssi : Int
  ssid : String
  password : String
deriving DecidableEq

/-- The enumeration `wl_status_t` of the WiFi library (the source names
`WL_CONNECTED` and `WL_CONNECT_FAILED`; the others are the remaining enumerators). -/
inductive WlStatus where
  | WL_NO_SHIELD
  | WL_IDLE_STATUS
  | WL_NO_SSID_AVAIL
  | WL_SCAN_COMPLETED
  | WL_CONNECTED
  | WL_CONNECT_FAILED
  | WL_CONNECTION_LOST
  | WL_DISCONNECTED
deriving DecidableEq

/-- An argument passed to `Serial.printf`. -/
inductive Arg where
  | str (s : String)
  | int (n : Int)
  | float (x : F32)
deriving DecidableEq

/-- One call to a collaborator, with what it was given and what it answered. -/
inductive Event where
  | println (s : String)
  | printf (fmt : String) (args : List Arg)
  | isConnected (r : Bool)
  | mode
  | scanNetworks (found : List ScanEntry)
  | begin (ssid password : String)
  | status (s : WlStatus)
  | delay (ms : Nat)
  | macAddress (mac : String)
  | signUp (ok : Bool)
  | firebaseBegin
  | getJSON (path : String) (ok : Bool)
  | setFloat (path : String) (value : F32) (ok : Bool)
  | rand (r : Int)
deriving DecidableEq

/-- The `FirebaseData` object after a request.  In `jsonObject` every member is
stored with the number that `FirebaseJsonData::to<float>()` gives for it. -/
structure FirebaseData where
  dataPath : String
  payload : String
  errorReason : String
  jsonObject : List (String × F32)

/-- The outside world.  `networks` is the catalog (the program uses the constant
`Firmware.networks`), `stdSort` is `std::sort`, the other fields answer a call from
the history of all calls made before it. -/
structure Env where
  RAND_MAX : Int
  networks : List NetworkConfig
  stdSort : (Candidate → Candidate → Bool) → List Candidate → List Candidate
  isConnected : List Event → Bool
  scan : List Event → List ScanEntry
  status : List Event → WlStatus
  macAddress : List Event → String
  signUp : List Event → Bool
  getJSON : List Event → String → Bool × FirebaseData
  setFloat : List Event → String → F32 → Bool × FirebaseData
  rand : List Event → Int

/-- Source lines 20-36, the fields of the global `firebaseConfig` that the program
writes (`deviceId` and the members of `config`). -/
structure FirebaseConfig where
  deviceId : String
  database_url : String
  api_key : String
  serverResponse : Nat
deriving DecidableEq

/-- The program state: the history of calls and the mutable globals. -/
structure State where
  hist : List Event
  calibration : Calibration
  firebaseConfig : FirebaseConfig
deriving DecidableEq

/-- Source line 31, `firebaseConfig.path`. -/
def firebasePath : String := "/dispositivos"

/-- State at power-up. -/
def State.init : State := ⟨[], Firmware.calibration, ⟨"", "", "", 0⟩⟩

/-! ## `connectionRound` (source lines 172-240) -/

/-- Source lines 173-184. -/
def networkTypes : List String :=
  ["Open", "WEP", "WPA PSK", "WPA2 PSK", "WPA/WPA2 PSK", "WPA2 Enterprise", "WPA3 PSK",
    "WPA2/WPA3 PSK", "WAPI PSK", "Err"]

/-- Source lines 205-209: the inner loop over the catalog for one scan result. -/
def matchNetworks (nets : List NetworkConfig) (ssid : String) (rssi : Int)
    (candidates : List Candidate) : List Candidate :=
  nets.foldl
    (fun cands network =>
      if ssid = network.ssid then cands ++ [⟨rssi, network.ssid, network.password⟩] else cands)
    candidates

/-- Source lines 197-210: the loop over the scan results; it prints each result
and appends its candidates.  The table `networkTypes` has 10 entries; for an
`authMode` beyond it the logged name is taken to be the empty string (the name
only goes to the log). -/
def scanLoop (nets : List NetworkConfig) (found : List ScanEntry) (hist : List Event) :
    List Candidate × List Event :=
  found.foldl
    (fun acc e =>
      (matchNetworks nets e.ssid e.rssi acc.1,
        acc.2 ++ [.printf "- %s (%d) (%s)\n"
          [.str e.ssid, .int e.rssi, .str (networkTypes.getD e.authMode "")]]))
    ([], hist)

/-- Source lines 212-214: the comparator handed to `std::sort`. -/
def cmpRssi (a b : Candidate) : Bool := decide (a.rssi > b.rssi)

/-- Result of the polling loop: the final `i`, the statuses `WiFi.status()`
returned at line 222 in order, and the history. -/
structure PollResult where
  i : Nat
  polls : List WlStatus
  hist : List Event

/-- Source lines 221-227.  The first argument is the number of iterations left,
`20 - i`. -/
def pollLoop (env : Env) : Nat → Nat → List WlStatus → List Event → PollResult
  | 0, i, polls, hist => ⟨i, polls, hist⟩
  | left + 1, i, polls, hist =>
    let status := env.status hist
    let hist := hist ++ [.status status]
    if status = .WL_CONNECT_FAILED ∨ status = .WL_CONNECTED then ⟨i, polls ++ [status], hist⟩
    else pollLoop env left (i + 1) (polls ++ [status]) (hist ++ [.delay 500])

/-- What happened in one iteration of the loop of lines 216-237. -/
structure Attempt where
  candidate : Candidate
  polls : List WlStatus
  i : Nat
  check229 : Option WlStatus
  check233 : WlStatus
deriving DecidableEq

/-- Result of the loop of lines 216-239. -/
structure RoundResult where
  result : Bool
  attempts : List Attempt
  hist : List Event

/-- Source lines 216-239.  In line 229 `WiFi.status()` is only called when
`i == 20` is false. -/
def attemptLoop (env : Env) : List Candidate → List Event → RoundResult
  | [], hist => ⟨false, [], hist⟩
  | candidate :: rest, hist =>
    let hist := hist ++ [.printf "Trying %s\n" [.str candidate.ssid],
      .begin candidate.ssid candidate.password]
    let p := pollLoop env 20 0 [] hist
    let c229 : Option WlStatus := if p.i = 20 then none else some (env.status p.hist)
    let hist := match c229 with
      | none => p.hist
      | some s => p.hist ++ [.status s]
    let hist := if p.i = 20 ∨ c229 = some .WL_CONNECT_FAILED
      then hist ++ [.printf "Failed to connect to %s\n" [.str candidate.ssid]] else hist
    let s233 := env.status hist
    let hist := hist ++ [.status s233]
    let attempt : Attempt := ⟨candidate, p.polls, p.i, c229, s233⟩
    if s233 = .WL_CONNECTED then
      ⟨true, [attempt], hist ++ [.printf "Connected to %s\n" [.str candidate.ssid]]⟩
    else
      let r := attemptLoop env rest hist
      ⟨r.result, attempt :: r.attempts, r.hist⟩

/-- Source lines 172-240. -/
def connectionRound (env : Env) (st : State) : Bool × State :=
  let hist := st.hist ++ [.println "Scanning networks"]
  let found := env.scan hist
  let hist := hist ++ [.scanNetworks found, .println "Candidates:"]
  let collected := scanLoop env.networks found hist
  let candidates := env.stdSort cmpRssi collected.1
  let r := attemptLoop env candidates collected.2
  (r.result, { st with hist := r.hist })

/-! ## the other functions -/

/-- Source lines 164-166: `while (!connectionRound()) ...`.  The loop has no bound
in the source; `fuel` bounds the number of rounds and `none` means it ran out. -/
def retryLoop (env : Env) : Nat → State → Option State
  | 0, _ => none
  | fuel + 1, st =>
    let r := connectionRound env st
    if r.1 then some r.2
    else retryLoop env fuel { r.2 with hist := r.2.hist ++ [.println "Retrying connection"] }

/-- Source lines 156-170. -/
def setupWifi (env : Env) (fuel : Nat) (st : State) : Option (Bool × State) :=
  let connected := env.isConnected st.hist
  let st := { st with hist := st.hist ++ [.isConnected connected] }
  if connected then some (false, st)
  else
    let st := { st with hist := st.hist ++
      [.println "Setting up WiFi", .mode, .println "Connecting to WiFi"] }
    match retryLoop env fuel st with
    | none => none
    | some st => some (true, { st with hist := st.hist ++ [.println "Connected to WiFi"] })

/-- Source lines 132-154 (`FIREBASE_DB_URL` and `FIREBASE_API_KEY` are empty strings). -/
def setupFirebase (env : Env) (st : State) : Bool × State :=
  let hist := st.hist ++ [.println "Setting up Firebase"]
  let mac := env.macAddress hist
  let hist := hist ++ [.macAddress mac]
  let cfg : FirebaseConfig := ⟨mac, "", "", 1000⟩
  let ok := env.signUp hist
  let hist := hist ++ [.signUp ok]
  if ok then
    (true, { st with hist := hist ++ [.println "Sign up succeeded", .firebaseBegin],
                     firebaseConfig := cfg })
  else
    (false, { st with hist := hist ++ [.println "Sign up failed"], firebaseConfig := cfg })

/-- Source lines 82 and 121: `sprintf(buf, "%s/%s/<leaf>", path, deviceId)`. -/
def devicePath (st : State) (leaf : String) : String :=
  firebasePath ++ "/" ++ st.firebaseConfig.deviceId ++ "/" ++ leaf

/-- Source lines 78-115. -/
def readCalibration (env : Env) (st : State) : State :=
  let hist := st.hist ++ [.println "Reading calibration"]
  let calibrationPath := devicePath st "calibragem"
  let r := env.getJSON hist calibrationPath
  let data := r.2
  let hist := hist ++ [.getJSON calibrationPath r.1]
  if r.1 then
    let hist := hist ++ [.printf "Path = %s; Payload = %s\n" [.str data.dataPath, .str data.payload]]
    let json := data.jsonObject
    let low := match json.lookup "baixo" with
      | some v => v
      | none => st.calibration.low
    let hist := match json.lookup "baixo" with
      | some _ => hist
      | none => hist ++ [.println "Failed to read calibration low"]
    let high := match json.lookup "alto" with
      | some v => v
      | none => st.calibration.high
    let hist := match json.lookup "alto" with
      | some _ => hist
      | none => hist ++ [.println "Failed to read calibration high"]
    { st with
      hist := hist ++ [.printf "Calibration: %.2f - %.2f\n" [.float low, .float high]],
      calibration := ⟨low, high⟩ }
  else
    { st with hist := hist ++ [.printf "Failed to read calibration. Reason: %s. Path = %s\n"
        [.str data.errorReason, .str calibrationPath]] }

/-- How a call ends: it returns, or it reaches a statement whose behaviour the
language leaves undefined; `state` is the state at that point. -/
inductive Outcome where
  | returned (state : State)
  | undefinedBehaviour (state : State)

/-- The state at which a call ended. -/
def Outcome.state : Outcome → State
  | .returned st => st
  | .undefinedBehaviour st => st

/-- Source lines 117-130.  When the write fails, line 128 calls `Serial.printf` with
a format that has the one conversion `%s` and passes it the `float` `reading` first
and the reason string second: the argument read for `%s` is not a string, which is
undefined behaviour.  The call is recorded and the run ends there as
`undefinedBehaviour`. -/
def publishReadings (env : Env) (st : State) : Outcome :=
  let hist := st.hist ++ [.println "Publishing readings"]
  let readingsPath := devicePath st "umidade"
  let r := env.rand hist
  let hist := hist ++ [.rand r]
  let reading := frandom env.RAND_MAX r st.calibration.low st.calibration.high
  let w := env.setFloat hist readingsPath reading
  let hist := hist ++ [.setFloat readingsPath reading w.1]
  if w.1 then
    .returned { st with hist := hist ++
        [.printf "Path = %s; Reading: %.2f\n" [.str w.2.dataPath, .float reading]] }
  else
    .undefinedBehaviour { st with hist := hist ++
        [.printf "Failed to publish reading. Reason: %s\n" [.float reading, .str w.2.errorReason]] }

/-- Source lines 63-76, one tick.  No modelled call throws, so the `catch` branch
of lines 71-73 has no counterpart.  `none` when `setupWifi` ran out of fuel; when
`publishReadings` ends in undefined behaviour so does the tick, and line 75 is not
reached. -/
def loop (env : Env) (fuel : Nat) (st : State) : Option Outcome :=
  match setupWifi env fuel st with
  | none => none
  | some (connected, st) =>
    let st := if connected then (setupFirebase env st).2 else st
    let st := readCalibration env st
    match publishReadings env st with
    | .returned st => some (.returned { st with hist := st.hist ++ [.delay 1000] })
    | .undefinedBehaviour st => some (.undefinedBehaviour st)

/-! ## `std::sort` as GNU libstdc++ implements it

The toolchain of the target links GNU libstdc++, whose `std::sort`
(`bits/stl_algo.h`) is an introsort: quicksort partitions down to ranges of at most
`_S_threshold = 16` elements, then one insertion sort.  The functions below follow
that header, over a list indexed from 0; `d` stands for a read outside the range,
which a valid call never makes. -/

section GnuSort
variable {α : Type} (comp : α → α → Bool) (d : α)

/-- `std::iter_swap(a + i, a + j)`. -/
def iterSwap (a : List α) (i j : Nat) : List α :=
  (a.set i (a.getD j d)).set j (a.getD i d)

/-- `__move_median_to_first(result, x, y, z, comp)`. -/
def moveMedianToFirst (a : List α) (result x y z : Nat) : List α :=
  if comp (a.getD x d) (a.getD y d) then
    if comp (a.getD y d) (a.getD z d) then iterSwap d a result y
    else if comp (a.getD x d) (a.getD z d) then iterSwap d a result z
    else iterSwap d a result x
  else if comp (a.getD x d) (a.getD z d) then iterSwap d a result x
  else if comp (a.getD y d) (a.getD z d) then iterSwap d a result z
  else iterSwap d a result y

/-- `while (comp(first, pivot)) ++first;` (the first argument bounds the steps). -/
def scanUp (a : List α) (pivot : Nat) : Nat → Nat → Nat
  | 0, first => first
  | fuel + 1, first =>
    if comp (a.getD first d) (a.getD pivot d) then scanUp a pivot fuel (first + 1) else first

/-- `while (comp(pivot, last)) --last;`. -/
def scanDown (a : List α) (pivot : Nat) : Nat → Nat
  | 0 => 0
  | last + 1 =>
    if comp (a.getD pivot d) (a.getD (last + 1) d) then scanDown a pivot last else last + 1

/-- `__unguarded_partition(first, last, pivot, comp)` (the first argument bounds the
number of swaps). -/
def unguardedPartition (pivot : Nat) : Nat → List α → Nat → Nat → Nat × List α
  | 0, a, first, _ => (first, a)
  | fuel + 1, a, first, last =>
    let first := scanUp comp d a pivot a.length first
    let last := scanDown comp d a pivot (last - 1)
    if first < last then unguardedPartition pivot fuel (iterSwap d a first last) (first + 1) last
    else (first, a)

/-- `__unguarded_partition_pivot(first, last, comp)`. -/
def unguardedPartitionPivot (a : List α) (first last : Nat) : Nat × List α :=
  let mid := first + (last - first) / 2
  let a := moveMedianToFirst comp d a first (first + 1) mid (last - 1)
  unguardedPartition comp d first a.length a (first + 1) last

/-- `__introsort_loop(first, last, depth_limit, comp)`; `none` when the depth limit is
used up (the heap sort taken then is not modelled). -/
def introsortLoop : Nat → List α → Nat → Nat → Option (List α)
  | depthLimit, a, first, last =>
    if last - first > 16 then
      match depthLimit with
      | 0 => none
      | depthLimit + 1 =>
        let p := unguardedPartitionPivot comp d a first last
        match introsortLoop depthLimit p.2 p.1 last with
        | none => none
        | some a => introsortLoop depthLimit a first p.1
    else some a

/-- `__unguarded_linear_insert(last, comp)` with `val = *last`. -/
def unguardedLinearInsert (val : α) : Nat → List α → List α
  | 0, a => a.set 0 val
  | last + 1, a =>
    if comp val (a.getD last d) then unguardedLinearInsert val last (a.set (last + 1) (a.getD last d))
    else a.set (last + 1) val

/-- `__insertion_sort(first, last, comp)`. -/
def insertionSortRange (a : List α) (first last : Nat) : List α :=
  (List.range' (first + 1) (last - (first + 1))).foldl
    (fun a i =>
      if comp (a.getD i d) (a.getD first d) then
        a.take first ++ [a.getD i d] ++ (a.drop first).take (i - first) ++ a.drop (i + 1)
      else unguardedLinearInsert comp d (a.getD i d) i a)
    a

/-- `__unguarded_insertion_sort(first, last, comp)`. -/
def unguardedInsertionSort (a : List α) (first last : Nat) : List α :=
  (List.range' first (last - first)).foldl
    (fun a i => unguardedLinearInsert comp d (a.getD i d) i a) a

/-- `__final_insertion_sort(first, last, comp)`. -/
def finalInsertionSort (a : List α) (first last : Nat) : List α :=
  if last - first > 16 then
    unguardedInsertionSort comp d (insertionSortRange comp d a first (first + 16)) (first + 16) last
  else insertionSortRange comp d a first last

/-- `std::sort(a.begin(), a.end(), comp)`. -/
def gnuSort (a : List α) : Option (List α) :=
  match a with
  | [] => some []
  | _ =>
    (introsortLoop comp d (log2Nat a.length a.length * 2) a 0 a.length).map
      (fun a => finalInsertionSort comp d a 0 a.length)

end GnuSort

/-- The element read outside a range of candidates. -/
def noCandidate : Candidate := ⟨0, "", ""⟩

/-- A scan that sees 17 access points of equal strength; the ninth belongs to the
second catalog network, the others to the first. -/
def crowdedScan : List ScanEntry :=
  (List.range 17).map
    (fun i => ⟨if i = 8 then "WiFi-IoT-123" else "Hermes-IoT", -60, 3, ""⟩)

/-! ## vocabulary of the properties -/

/-- The pairs (scan result, catalog entry) whose names are equal, scan results in
scan order and, for one scan result, catalog entries in catalog order. -/
def matchingPairs (nets : List NetworkConfig) (found : List ScanEntry) :
    List (ScanEntry × NetworkConfig) :=
  (List.product found nets).filter (fun p => decide (p.1.ssid = p.2.ssid))

/-- The candidate a matching pair stands for: the strength measured by the scan,
name and password from the catalog. -/
def candidateOf (p : ScanEntry × NetworkConfig) : Candidate :=
  ⟨p.1.rssi, p.2.ssid, p.2.password⟩

/-- What the C++ standard requires of the comparator given to `std::sort`: a strict
weak ordering (irreflexive, transitive, with transitive incomparability). -/
structure StrictWeakOrdering {α : Type} (comp : α → α → Bool) : Prop where
  irrefl : ∀ a, comp a a = false
  trans : ∀ a b c, comp a b = true → comp b c = true → comp a c = true
  incomp_trans : ∀ a b c, comp a b = false → comp b a = false → comp b c = false →
    comp c b = false → comp a c = false ∧ comp c a = false

/-- What the C++ standard guarantees of `std::sort(first, last, comp)`: the range is
rearranged (a permutation) so that no element compares before one that precedes
it.  Nothing is said about the order of equivalent elements. -/
def StdSortContract (sort : (Candidate → Candidate → Bool) → List Candidate → List Candidate) :
    Prop :=
  ∀ comp l, StrictWeakOrdering comp →
    (sort comp l).Perm l ∧ (sort comp l).Pairwise (fun a b => comp b a = false)

/-- A stable sort: insertion sort that puts an element before the first one that
must not precede it. -/
def stableSortBy (comp : Candidate → Candidate → Bool) (l : List Candidate) : List Candidate :=
  l.insertionSort (fun a b => comp b a = false)

/-- A sort that meets `StdSortContract` and is not stable: the stable sort of the
reversed range. -/
def reversingSortBy (comp : Candidate → Candidate → Bool) (l : List Candidate) : List Candidate :=
  l.reverse.insertionSort (fun a b => comp b a = false)

/-- Ties keep their order: whenever `a` stands before `b` in `before` and both have
the same strength, `a` stands before `b` in `after` too. -/
def TiesKeepOrder (before after : List Candidate) : Prop :=
  ∀ a b : Candidate, a.rssi = b.rssi → List.Sublist [a, b] before → List.Sublist [a, b] after

/-- The connections initiated in a stretch of history: the arguments of the
`WiFi.begin` calls, in order. -/
def beginsOf (evs : List Event) : List (String × String) :=
  evs.filterMap (fun e => match e with
    | .begin ssid password => some (ssid, password)
    | _ => none)

/-- The candidate reached connect-failed status: its polling loop ended on a poll
that returned `WL_CONNECT_FAILED`. -/
def Attempt.reachedFailed (a : Attempt) : Prop :=
  a.polls.getLast? = some .WL_CONNECT_FAILED

/-- The candidate exhausted its poll budget: 20 polls, none of which returned
`WL_CONNECTED` or `WL_CONNECT_FAILED`. -/
def Attempt.exhausted (a : Attempt) : Prop :=
  a.polls.length = 20 ∧ ∀ s ∈ a.polls, s ≠ .WL_CONNECTED ∧ s ≠ .WL_CONNECT_FAILED

/-- Every candidate of `cands` was attempted and each one either reached
connect-failed status or exhausted its poll budget. -/
def AllFailedOrTimedOut (cands : List Candidate) (r : RoundResult) : Prop :=
  r.attempts.map (fun a => a.candidate) = cands ∧
    ∀ a ∈ r.attempts, a.reachedFailed ∨ a.exhausted

/-- The candidate reached connected status: its polling loop ended on a poll that
returned `WL_CONNECTED`. -/
def Attempt.reachedConnected (a : Attempt) : Prop :=
  a.polls.getLast? = some .WL_CONNECTED

/-- Connected status holds: for every attempted candidate whose last poll (line 222)
returned `WL_CONNECTED`, the status query of line 233 returned `WL_CONNECTED` too. -/
def ConnectedHolds (r : RoundResult) : Prop :=
  ∀ a ∈ r.attempts, a.reachedConnected → a.check233 = .WL_CONNECTED

/-- No flicker between polling and the test of line 233: for every attempted
candidate the status query of line 233 returned `WL_CONNECTED` exactly when the
candidate's last poll (line 222) had returned `WL_CONNECTED`. -/
def ConnectedAgrees (r : RoundResult) : Prop :=
  ∀ a ∈ r.attempts, a.check233 = .WL_CONNECTED ↔ a.reachedConnected

/-- The calls of the polling loop for the statuses it read: every status query, and
after each one that was neither `WL_CONNECT_FAILED` nor `WL_CONNECTED` a
`delay(500)`. -/
def pollEvents (polls : List WlStatus) : List Event :=
  polls.flatMap (fun s =>
    if s = .WL_CONNECT_FAILED ∨ s = .WL_CONNECTED then [.status s]
    else [.status s, .delay 500])

/-- The status query of line 229, when it was made. -/
def statusEvents : Option WlStatus → List Event
  | some s => [.status s]
  | none => []

/-- The calls of one iteration of the loop of lines 216-237, rebuilt from its
record: the log line and the `WiFi.begin` of lines 217-218, the polling, the status
query of line 229 when it was made, the log line of line 230, the status query of
line 233 and the log line of line 234. -/
def Attempt.events (a : Attempt) : List Event :=
  [.printf "Trying %s\n" [.str a.candidate.ssid],
    .begin a.candidate.ssid a.candidate.password] ++
  pollEvents a.polls ++
  statusEvents a.check229 ++
  (if a.i = 20 ∨ a.check229 = some .WL_CONNECT_FAILED
    then [.printf "Failed to connect to %s\n" [.str a.candidate.ssid]] else []) ++
  [.status a.check233] ++
  (if a.check233 = .WL_CONNECTED
    then [.printf "Connected to %s\n" [.str a.candidate.ssid]] else [])

/-- Every status recorded in `evs` is what the interface answered at that point:
the value of each `status` event is `env.status` of the history before it, where
`hist` is the history before `evs`. -/
def Answered (env : Env) : List Event → List Event → Prop
  | _, [] => True
  | hist, e :: evs =>
    (match e with
      | .status s => s = env.status hist
      | _ => True) ∧ Answered env (hist ++ [e]) evs

/-- What the polling loop of lines 221-227 leaves behind: either `i = 20` after 20
unresolved polls (and line 229 makes no status query), or `i < 20` and the last
poll, and only the last, returned `WL_CONNECT_FAILED` or `WL_CONNECTED`. -/
def Attempt.PollFacts (a : Attempt) : Prop :=
  (a.i = 20 ∧ a.check229 = none ∧ a.exhausted) ∨
  (a.i < 20 ∧ ∃ pre s, a.polls = pre ++ [s] ∧ pre.length = a.i ∧
    (s = .WL_CONNECT_FAILED ∨ s = .WL_CONNECTED) ∧
    ∀ x ∈ pre, x ≠ .WL_CONNECTED ∧ x ≠ .WL_CONNECT_FAILED)

/-- An outside world in which nothing is in range and the link stays down. -/
def baseEnv : Env where
  RAND_MAX := 2147483647
  networks := networks
  stdSort := stableSortBy
  isConnected := fun _ => false
  scan := fun _ => []
  status := fun _ => .WL_DISCONNECTED
  macAddress := fun _ => "24:6F:28:00:00:01"
  signUp := fun _ => true
  getJSON := fun _ _ => (false, ⟨"", "", "connection refused", []⟩)
  setFloat := fun _ _ _ => (true, ⟨"", "", "", []⟩)
  rand := fun _ => 0

/-- The number of status queries made so far. -/
def statusQueries (hist : List Event) : Nat :=
  hist.countP (fun e => match e with
    | .status _ => true
    | _ => false)

/-- A link that comes up late: the first 20 status queries return
`WL_DISCONNECTED`, every later one `WL_CONNECTED`. -/
def lateEnv : Env :=
  { baseEnv with
    status := fun hist => if statusQueries hist < 20 then .WL_DISCONNECTED else .WL_CONNECTED }

/-- A link that flickers: the first status query returns `WL_CONNECTED`, every
later one `WL_DISCONNECTED`. -/
def flickerEnv : Env :=
  { baseEnv with
    status := fun hist => if statusQueries hist = 0 then .WL_CONNECTED else .WL_DISCONNECTED }

/-- A link that comes up at once: every status query returns `WL_CONNECTED`. -/
def promptEnv : Env :=
  { baseEnv with status := fun _ => .WL_CONNECTED }

/-- A line of serial output. -/
def Event.isLog : Event → Bool
  | .println _ => true
  | .printf _ _ => true
  | _ => false

/-- A remote read of the calibration (`Firebase.RTDB.getJSON`). -/
def Event.isGetJSON : Event → Bool
  | .getJSON _ _ => true
  | _ => false

/-- A remote write of a reading (`Firebase.RTDB.setFloat`). -/
def Event.isSetFloat : Event → Bool
  | .setFloat _ _ _ => true
  | _ => false

/-- `readCalibration` was entered: its first statement (line 79) was executed. -/
def ranReadCalibration (evs : List Event) : Bool :=
  evs.contains (.println "Reading calibration")

/-- `publishReadings` was entered: its first statement (line 118) was executed. -/
def ranPublishReadings (evs : List Event) : Bool :=
  evs.contains (.println "Publishing readings")

/-- The link is already up. -/
def connectedEnv : Env :=
  { baseEnv with isConnected := fun _ => true }

/-- The link is down, the first catalog network is in range and connects at once,
and the Firebase sign-up is refused. -/
def handshakeFailEnv : Env :=
  { baseEnv with
    scan := fun _ => [⟨"Hermes-IoT", -50, 3, "AA:BB:CC:DD:EE:FF"⟩]
    status := fun _ => .WL_CONNECTED
    signUp := fun _ => false
    setFloat := fun _ _ _ => (false, ⟨"", "", "token is not ready", []⟩) }

/-- The link is down, the first catalog network is in range and connects at once,
the Firebase sign-up is refused, the calibration read fails and the write of the
reading is accepted. -/
def refusedSignUpEnv : Env :=
  { baseEnv with
    scan := fun _ => [⟨"Hermes-IoT", -50, 3, "AA:BB:CC:DD:EE:FF"⟩]
    status := fun _ => .WL_CONNECTED
    signUp := fun _ => false }

/-- The calibration read succeeds with a payload that has the member `baixo` only. -/
def lowOnlyEnv : Env :=
  { baseEnv with
    getJSON := fun _ path => (true, ⟨path, "\x7b\"baixo\":0.25\x7d", "", [("baixo", .fin (1 / 4))]⟩) }

/-- The calibration read succeeds with a payload that has the member `alto` only. -/
def highOnlyEnv : Env :=
  { baseEnv with
    getJSON := fun _ path => (true, ⟨path, "\x7b\"alto\":0.75\x7d", "", [("alto", .fin (3 / 4))]⟩) }

/-- The next `rand()` returns `RAND_MAX`. -/
def maxRandEnv : Env :=
  { baseEnv with rand := fun _ => 2147483647 }

/-! # Theorems -/

/-! ## candidate selection (source lines 197-214) -/

theorem matchNetworks_eq (nets : List NetworkConfig) (ssid : String) (rssi : Int)
    (acc : List Candidate) :
    matchNetworks nets ssid rssi acc =
      acc ++ ((nets.filter (fun n => decide (ssid = n.ssid))).map
        (fun n => (⟨rssi, n.ssid, n.password⟩ : Candidate))) := by
  unfold matchNetworks
  induction nets generalizing acc with
  | nil => simp
  | cons n ns ih =>
    simp only [List.foldl_cons]
    by_cases h : ssid = n.ssid
    · rw [if_pos h, ih]; simp [List.filter_cons, h]
    · rw [if_neg h, ih]; simp [List.filter_cons, h]

theorem scanLoop_fst (nets : List NetworkConfig) (found : List ScanEntry)
    (acc : List Candidate) (hist : List Event) :
    (found.foldl
      (fun (acc : List Candidate × List Event) e =>
        (matchNetworks nets e.ssid e.rssi acc.1,
          acc.2 ++ [Event.printf "- %s (%d) (%s)\n"
            [.str e.ssid, .int e.rssi, .str (networkTypes.getD e.authMode "")]]))
      (acc, hist)).1 = acc ++ (matchingPairs nets found).map candidateOf := by
  induction found generalizing acc hist with
  | nil => simp [matchingPairs]
  | cons e es ih =>
    have hprod : (e :: es).product nets = nets.map (Prod.mk e) ++ es.product nets := by
      simp [List.product]
    simp only [List.foldl_cons]
    rw [ih, matchNetworks_eq]
    simp [matchingPairs, hprod, List.filter_append, List.filter_map, candidateOf,
      Function.comp_def]

theorem scanLoop_candidates (nets : List NetworkConfig) (found : List ScanEntry)
    (hist : List Event) :
    (scanLoop nets found hist).1 = (matchingPairs nets found).map candidateOf := by
  simpa [scanLoop] using scanLoop_fst nets found [] hist

theorem scanLoop_case_sensitive :
    (scanLoop networks [⟨"hermes-iot", -40, 3, ""⟩, ⟨"Hermes-IoT", -60, 3, ""⟩] []).1 =
      [⟨-60, "Hermes-IoT", "HermesIOT"⟩] := by
  decide

theorem cmpRssi_strictWeak : StrictWeakOrdering cmpRssi where
  irrefl a := by simp [cmpRssi]
  trans a b c := by simp only [cmpRssi, decide_eq_true_eq]; omega
  incomp_trans a b c := by simp only [cmpRssi, decide_eq_false_iff_not]; omega

theorem swo_neg_trans {α : Type} {comp : α → α → Bool} (h : StrictWeakOrdering comp)
    (a b c : α) (hab : comp b a = false) (hbc : comp c b = false) : comp c a = false := by
  by_contra hca
  have hca : comp c a = true := by simpa using hca
  have h1 : comp a b = false := by
    by_contra hx
    have hx : comp a b = true := by simpa using hx
    have := h.trans c a b hca hx
    simp [this] at hbc
  have h2 : comp b c = false := by
    by_contra hx
    have hx : comp b c = true := by simpa using hx
    have := h.trans b c a hx hca
    simp [this] at hab
  have := (h.incomp_trans a b c h1 hab h2 hbc).2
  simp [this] at hca

theorem swo_asymm {α : Type} {comp : α → α → Bool} (h : StrictWeakOrdering comp)
    (a b : α) (hab : comp a b = true) : comp b a = false := by
  by_contra hx
  have hx : comp b a = true := by simpa using hx
  have := h.trans a b a hab hx
  simp [h.irrefl a] at this

theorem insertionSort_sorted (comp : Candidate → Candidate → Bool)
    (h : StrictWeakOrdering comp) (l : List Candidate) :
    (l.insertionSort (fun a b => comp b a = false)).Pairwise (fun a b => comp b a = false) := by
  haveI : IsTotal Candidate (fun a b => comp b a = false) :=
    ⟨fun a b => by
      by_cases hx : comp b a = true
      · exact Or.inr (swo_asymm h b a hx)
      · exact Or.inl (by simpa using hx)⟩
  haveI : IsTrans Candidate (fun a b => comp b a = false) :=
    ⟨fun a b c hab hbc => swo_neg_trans h a b c hab hbc⟩
  exact List.sorted_insertionSort (fun a b => comp b a = false) l

theorem stableSortBy_contract : StdSortContract stableSortBy := by
  intro comp l h
  exact ⟨List.perm_insertionSort _ l, insertionSort_sorted comp h l⟩

theorem reversingSortBy_contract : StdSortContract reversingSortBy := by
  intro comp l h
  exact ⟨(List.perm_insertionSort _ l.reverse).trans (List.reverse_perm l),
    insertionSort_sorted comp h l.reverse⟩

theorem stdSort_nonincreasing
    (sort : (Candidate → Candidate → Bool) → List Candidate → List Candidate)
    (hsort : StdSortContract sort) (l : List Candidate) :
    (sort cmpRssi l).Pairwise (fun a b => a.rssi ≥ b.rssi) ∧ (sort cmpRssi l).Perm l := by
  obtain ⟨hp, hs⟩ := hsort cmpRssi l cmpRssi_strictWeak
  refine ⟨hs.imp ?_, hp⟩
  intro a b hab
  simp only [cmpRssi, decide_eq_false_iff_not] at hab
  omega

theorem stableSortBy_keeps_ties (l : List Candidate) :
    TiesKeepOrder l (stableSortBy cmpRssi l) := by
  intro a b hab hsub
  refine List.pair_sublist_insertionSort (r := fun a b => cmpRssi b a = false) ?_ hsub
  simp [cmpRssi, hab]

/-- C1.  The candidates collected by the loops of lines 197-210 are exactly the
candidates of the matching (scan result, catalog entry) pairs, one per pair: a pair
gives a candidate iff the two names are equal as strings, the candidate has the
scan's strength and the catalog's name and password, and nothing is merged. -/
theorem scanLoop_collects_matching_pairs (nets : List NetworkConfig) (found : List ScanEntry)
    (hist : List Event) :
    (scanLoop nets found hist).1 = (matchingPairs nets found).map candidateOf ∧
    ((scanLoop nets found hist).1.length =
      ((List.product found nets).filter (fun p => decide (p.1.ssid = p.2.ssid))).length) ∧
    (∀ c : Candidate, c ∈ (scanLoop nets found hist).1 ↔
      ∃ s ∈ found, ∃ n ∈ nets, s.ssid = n.ssid ∧ c = ⟨s.rssi, n.ssid, n.password⟩) := by
  rw [scanLoop_candidates]
  refine ⟨rfl, by simp [matchingPairs], ?_⟩
  intro c
  have hmem : ∀ (s : ScanEntry) (n : NetworkConfig),
      (s, n) ∈ List.product found nets ↔ s ∈ found ∧ n ∈ nets := by
    intro s n
    simp [List.product]
  simp only [matchingPairs, candidateOf, List.mem_map, List.mem_filter, hmem,
    decide_eq_true_eq, Prod.exists]
  constructor
  · rintro ⟨s, n, ⟨⟨hs, hn⟩, he⟩, rfl⟩
    exact ⟨s, hs, n, hn, he, rfl⟩
  · rintro ⟨s, hs, n, hn, he, rfl⟩
    exact ⟨s, n, ⟨⟨hs, hn⟩, he⟩, rfl⟩

theorem gnuSort_crowdedScan :
    gnuSort cmpRssi noCandidate (scanLoop networks crowdedScan []).1 =
      some (⟨-60, "WiFi-IoT-123", "TUDOMINUSCULO"⟩ ::
        List.replicate 16 ⟨-60, "Hermes-IoT", "HermesIOT"⟩) := by
  decide

/-- C3, the claim is false.  First, the contract of `std::sort` does not give it:
`reversingSortBy` meets the contract, and with it two candidates of equal strength
(-60) leave the sort in the opposite of their scan order.  Second, GNU libstdc++'s
`std::sort` does not give it either: on the 17 equal-strength candidates of
`crowdedScan` it moves the ninth candidate (`WiFi-IoT-123`) in front of the eight
`Hermes-IoT` candidates scanned before it. -/
theorem stable_ties_counterexample :
    ¬ (∀ sort : (Candidate → Candidate → Bool) → List Candidate → List Candidate,
        StdSortContract sort → ∀ (nets : List NetworkConfig) (found : List ScanEntry),
          TiesKeepOrder (scanLoop nets found []).1 (sort cmpRssi (scanLoop nets found []).1)) ∧
    gnuSort cmpRssi noCandidate (scanLoop networks crowdedScan []).1 =
      some (⟨-60, "WiFi-IoT-123", "TUDOMINUSCULO"⟩ ::
        List.replicate 16 ⟨-60, "Hermes-IoT", "HermesIOT"⟩) ∧
    ¬ TiesKeepOrder (scanLoop networks crowdedScan []).1
      (⟨-60, "WiFi-IoT-123", "TUDOMINUSCULO"⟩ ::
        List.replicate 16 ⟨-60, "Hermes-IoT", "HermesIOT"⟩) := by
  refine ⟨?_, gnuSort_crowdedScan, ?_⟩
  · intro h
    have h1 := h reversingSortBy reversingSortBy_contract networks
      [⟨"Hermes-IoT", -60, 3, "a"⟩, ⟨"WiFi-IoT-123", -60, 3, "b"⟩]
      ⟨-60, "Hermes-IoT", "HermesIOT"⟩ ⟨-60, "WiFi-IoT-123", "TUDOMINUSCULO"⟩ rfl (by decide)
    revert h1
    decide
  · intro h
    have h1 := h ⟨-60, "Hermes-IoT", "HermesIOT"⟩ ⟨-60, "WiFi-IoT-123", "TUDOMINUSCULO"⟩ rfl
      (by decide)
    revert h1
    decide

/-- C3 as amended.  Whatever `std::sort` does within its contract, its result is a
permutation of the stable sort of the collected candidates and has the same `rssi`
at every position (the stable sort is the one in which ties keep their scan
order); only candidates of equal `rssi` can stand in each other's places. -/
theorem sorted_candidates_stable_up_to_ties
    (sort : (Candidate → Candidate → Bool) → List Candidate → List Candidate)
    (hsort : StdSortContract sort) (nets : List NetworkConfig) (found : List ScanEntry)
    (hist : List Event) :
    (sort cmpRssi (scanLoop nets found hist).1).Perm
      (stableSortBy cmpRssi (scanLoop nets found hist).1) ∧
    (sort cmpRssi (scanLoop nets found hist).1).map (fun c => c.rssi) =
      (stableSortBy cmpRssi (scanLoop nets found hist).1).map (fun c => c.rssi) ∧
    TiesKeepOrder (scanLoop nets found hist).1
      (stableSortBy cmpRssi (scanLoop nets found hist).1) := by
  obtain ⟨hs1, hp1⟩ := stdSort_nonincreasing sort hsort (scanLoop nets found hist).1
  obtain ⟨hs2, hp2⟩ := stdSort_nonincreasing stableSortBy stableSortBy_contract
    (scanLoop nets found hist).1
  refine ⟨hp1.trans hp2.symm, ?_, stableSortBy_keeps_ties _⟩
  refine List.eq_of_perm_of_sorted (r := fun x y : Int => x ≥ y) ((hp1.trans hp2.symm).map _) ?_ ?_
  · exact List.pairwise_map.mpr hs1
  · exact List.pairwise_map.mpr hs2

theorem sorted_candidates_stable_up_to_ties_witness :
    StdSortContract reversingSortBy ∧
    (reversingSortBy cmpRssi (scanLoop networks
        [⟨"Hermes-IoT", -60, 3, "a"⟩, ⟨"WiFi-IoT-123", -60, 3, "b"⟩] []).1).map (fun c => c.rssi) =
      (stableSortBy cmpRssi (scanLoop networks
        [⟨"Hermes-IoT", -60, 3, "a"⟩, ⟨"WiFi-IoT-123", -60, 3, "b"⟩] []).1).map (fun c => c.rssi) :=
  ⟨reversingSortBy_contract,
    (sorted_candidates_stable_up_to_ties reversingSortBy reversingSortBy_contract networks
      _ []).2.1⟩

theorem getLast?_cons_ne_nil {α : Type} (a : α) {l : List α} (h : l ≠ []) :
    (a :: l).getLast? = l.getLast? := by
  cases l with
  | nil => exact absurd rfl h
  | cons b bs => simp [List.getLast?_cons_cons]

theorem beginsOf_append (a b : List Event) : beginsOf (a ++ b) = beginsOf a ++ beginsOf b := by
  simp [beginsOf, List.filterMap_append]

theorem Answered_append (env : Env) (e1 : List Event) :
    ∀ (hist e2 : List Event), Answered env hist e1 → Answered env (hist ++ e1) e2 →
      Answered env hist (e1 ++ e2) := by
  induction e1 with
  | nil => intro hist e2 _ h2; simpa using h2
  | cons e es ih =>
    intro hist e2 h1 h2
    simp only [Answered] at h1
    simp only [List.cons_append, Answered]
    refine ⟨h1.1, ih _ _ h1.2 ?_⟩
    simpa using h2

theorem pollEvents_cons_resolved (s : WlStatus) (l : List WlStatus)
    (h : s = WlStatus.WL_CONNECT_FAILED ∨ s = WlStatus.WL_CONNECTED) :
    pollEvents (s :: l) = Event.status s :: pollEvents l := by
  simp [pollEvents, h]

theorem pollEvents_cons_unresolved (s : WlStatus) (l : List WlStatus)
    (h : ¬ (s = WlStatus.WL_CONNECT_FAILED ∨ s = WlStatus.WL_CONNECTED)) :
    pollEvents (s :: l) = Event.status s :: Event.delay 500 :: pollEvents l := by
  simp [pollEvents, h]

theorem beginsOf_pollEvents (l : List WlStatus) : beginsOf (pollEvents l) = [] := by
  induction l with
  | nil => rfl
  | cons s l ih =>
    by_cases h : s = WlStatus.WL_CONNECT_FAILED ∨ s = WlStatus.WL_CONNECTED
    · rw [pollEvents_cons_resolved s l h]
      simpa [beginsOf] using ih
    · rw [pollEvents_cons_unresolved s l h]
      simpa [beginsOf] using ih

theorem pollLoop_spec (env : Env) (left : Nat) :
    ∀ (i : Nat) (polls : List WlStatus) (hist : List Event),
    ∃ (new : List WlStatus),
      (pollLoop env left i polls hist).polls = polls ++ new ∧
      (pollLoop env left i polls hist).hist = hist ++ pollEvents new ∧
      Answered env hist (pollEvents new) ∧
      (((pollLoop env left i polls hist).i = i + left ∧ new.length = left ∧
          ∀ s ∈ new, s ≠ WlStatus.WL_CONNECTED ∧ s ≠ WlStatus.WL_CONNECT_FAILED) ∨
       ((pollLoop env left i polls hist).i < i + left ∧ ∃ pre s, new = pre ++ [s] ∧
          (pollLoop env left i polls hist).i = i + pre.length ∧
          (s = WlStatus.WL_CONNECT_FAILED ∨ s = WlStatus.WL_CONNECTED) ∧
          ∀ x ∈ pre, x ≠ WlStatus.WL_CONNECTED ∧ x ≠ WlStatus.WL_CONNECT_FAILED)) := by
  induction left with
  | zero =>
    intro i polls hist
    exact ⟨[], by simp [pollLoop], by simp [pollLoop, pollEvents], by simp [pollEvents, Answered],
      Or.inl ⟨by simp [pollLoop], rfl, by simp⟩⟩
  | succ n ih =>
    intro i polls hist
    by_cases hres : env.status hist = WlStatus.WL_CONNECT_FAILED ∨
        env.status hist = WlStatus.WL_CONNECTED
    · refine ⟨[env.status hist], ?_, ?_, ?_, Or.inr ⟨?_, [], _, rfl, ?_, hres, by simp⟩⟩
      · simp [pollLoop, hres]
      · rw [pollEvents_cons_resolved _ _ hres]
        simp [pollLoop, hres, pollEvents]
      · rw [pollEvents_cons_resolved _ _ hres]
        simp [pollEvents, Answered]
      · simp [pollLoop, hres]
      · simp [pollLoop, hres]
    · have hunf : pollLoop env (n + 1) i polls hist =
          pollLoop env n (i + 1) (polls ++ [env.status hist])
            (hist ++ [.status (env.status hist), .delay 500]) := by
        simp [pollLoop, hres]
      obtain ⟨new, hp, hh, hans, hcase⟩ :=
        ih (i + 1) (polls ++ [env.status hist])
          (hist ++ [.status (env.status hist), .delay 500])
      have hne : env.status hist ≠ WlStatus.WL_CONNECTED ∧
          env.status hist ≠ WlStatus.WL_CONNECT_FAILED := by
        constructor
        · intro h; exact hres (Or.inr h)
        · intro h; exact hres (Or.inl h)
      rw [hunf]
      refine ⟨env.status hist :: new, ?_, ?_, ?_, ?_⟩
      · rw [hp]; simp
      · rw [hh, pollEvents_cons_unresolved _ _ hres]; simp
      · rw [pollEvents_cons_unresolved _ _ hres]
        exact Answered_append env [.status (env.status hist), .delay 500] hist _
          (by simp [Answered]) hans
      · rcases hcase with ⟨h1, h2, h3⟩ | ⟨h1, pre, s, h2, h3, h4, h5⟩
        · refine Or.inl ⟨by omega, by simp [h2], ?_⟩
          intro s hs
          rcases List.mem_cons.mp hs with rfl | hs
          · exact hne
          · exact h3 s hs
        · refine Or.inr ⟨by omega, env.status hist :: pre, s, by simp [h2],
            by rw [List.length_cons]; omega, h4, ?_⟩
          intro x hx
          rcases List.mem_cons.mp hx with rfl | hx
          · exact hne
          · exact h5 x hx

theorem pollLoop_facts (env : Env) (hist : List Event) (c : Candidate) (c229 : Option WlStatus)
    (s233 : WlStatus) (h229 : (pollLoop env 20 0 [] hist).i = 20 → c229 = none) :
    Attempt.PollFacts ⟨c, (pollLoop env 20 0 [] hist).polls, (pollLoop env 20 0 [] hist).i,
      c229, s233⟩ := by
  obtain ⟨new, hp, -, -, hcase⟩ := pollLoop_spec env 20 0 [] hist
  simp only [List.nil_append] at hp
  rcases hcase with ⟨h1, h2, h3⟩ | ⟨h1, pre, s, h2, h3, h4, h5⟩
  · refine Or.inl ⟨by simpa using h1, h229 (by simpa using h1), ?_, ?_⟩
    · show (pollLoop env 20 0 [] hist).polls.length = 20
      rw [hp, h2]
    · show ∀ s ∈ (pollLoop env 20 0 [] hist).polls, _
      rw [hp]; exact h3
  · refine Or.inr ⟨by simpa using h1, pre, s, ?_, ?_, h4, h5⟩
    · show (pollLoop env 20 0 [] hist).polls = pre ++ [s]
      rw [hp, h2]
    · show pre.length = (pollLoop env 20 0 [] hist).i
      omega

theorem beginsOf_events (a : Attempt) :
    beginsOf a.events = [(a.candidate.ssid, a.candidate.password)] := by
  unfold Attempt.events
  simp only [beginsOf_append, beginsOf_pollEvents]
  cases a.check229 <;> by_cases h1 : a.i = 20 <;>
    by_cases h3 : a.check233 = WlStatus.WL_CONNECTED <;> simp [beginsOf, statusEvents, h1, h3]

theorem beginsOf_flatMap_events (l : List Attempt) :
    beginsOf (l.flatMap Attempt.events) =
      l.map (fun a => (a.candidate.ssid, a.candidate.password)) := by
  induction l with
  | nil => rfl
  | cons a l ih => simp [List.flatMap_cons, beginsOf_append, beginsOf_events, ih]

theorem events_of_last_connected (l : List Attempt) (a : Attempt)
    (hlast : l.getLast? = some a) (hc : a.check233 = WlStatus.WL_CONNECTED) :
    ∃ before, l.flatMap Attempt.events = before ++ [Event.status WlStatus.WL_CONNECTED,
      Event.printf "Connected to %s\n" [.str a.candidate.ssid]] := by
  obtain ⟨ys, rfl⟩ := List.getLast?_eq_some_iff.mp hlast
  refine ⟨ys.flatMap Attempt.events ++
    ([.printf "Trying %s\n" [.str a.candidate.ssid],
      .begin a.candidate.ssid a.candidate.password] ++
    pollEvents a.polls ++
    (statusEvents a.check229) ++
    (if a.i = 20 ∨ a.check229 = some .WL_CONNECT_FAILED
      then [.printf "Failed to connect to %s\n" [.str a.candidate.ssid]] else [])), ?_⟩
  simp [List.flatMap_append, Attempt.events, hc]

theorem attemptLoop_spec (env : Env) (cands : List Candidate) :
    ∀ hist : List Event, ∃ (k : Nat),
      k ≤ cands.length ∧
      (attemptLoop env cands hist).attempts.map (fun a => a.candidate) = cands.take k ∧
      (attemptLoop env cands hist).hist =
        hist ++ (attemptLoop env cands hist).attempts.flatMap Attempt.events ∧
      Answered env hist ((attemptLoop env cands hist).attempts.flatMap Attempt.events) ∧
      (∀ a ∈ (attemptLoop env cands hist).attempts.dropLast,
        a.check233 ≠ WlStatus.WL_CONNECTED) ∧
      ((attemptLoop env cands hist).result = true →
        ∃ a, (attemptLoop env cands hist).attempts.getLast? = some a ∧
          a.check233 = WlStatus.WL_CONNECTED) ∧
      ((attemptLoop env cands hist).result = false →
        k = cands.length ∧
        ∀ a ∈ (attemptLoop env cands hist).attempts, a.check233 ≠ WlStatus.WL_CONNECTED) ∧
      (∀ a ∈ (attemptLoop env cands hist).attempts, a.PollFacts) := by
  induction cands with
  | nil =>
    intro hist
    exact ⟨0, by simp, by simp [attemptLoop], by simp [attemptLoop], by simp [attemptLoop, Answered],
      by simp [attemptLoop], by simp [attemptLoop], by simp [attemptLoop], by simp [attemptLoop]⟩
  | cons c rest ih =>
    intro hist
    obtain ⟨new, hpp, hph, hpa, -⟩ := pollLoop_spec env 20 0 []
      (hist ++ [.printf "Trying %s\n" [.str c.ssid], .begin c.ssid c.password])
    simp only [List.nil_append] at hpp
    rw [← hpp] at hph hpa
    have hfacts0 := fun (c229 : Option WlStatus) (s233 : WlStatus) => pollLoop_facts env
      (hist ++ [.printf "Trying %s\n" [.str c.ssid], .begin c.ssid c.password]) c c229 s233
    generalize hp : pollLoop env 20 0 []
      (hist ++ [.printf "Trying %s\n" [.str c.ssid], .begin c.ssid c.password]) = p
      at hph hpa hfacts0
    generalize hc229 : (if p.i = 20 then none else some (env.status p.hist) : Option WlStatus)
      = c229
    generalize hh1 : (match c229 with
      | none => p.hist
      | some s => p.hist ++ [Event.status s]) = h1
    generalize hh2 : (if p.i = 20 ∨ c229 = some WlStatus.WL_CONNECT_FAILED
      then h1 ++ [Event.printf "Failed to connect to %s\n" [.str c.ssid]] else h1) = h2
    generalize hs233 : env.status h2 = s233
    have hfacts : Attempt.PollFacts ⟨c, p.polls, p.i, c229, s233⟩ :=
      hfacts0 c229 s233 (by intro h; rw [← hc229]; simp [h])
    have hunf : attemptLoop env (c :: rest) hist =
        if s233 = WlStatus.WL_CONNECTED then
          ⟨true, [⟨c, p.polls, p.i, c229, s233⟩],
            h2 ++ [.status s233] ++ [.printf "Connected to %s\n" [.str c.ssid]]⟩
        else
          ⟨(attemptLoop env rest (h2 ++ [.status s233])).result,
            ⟨c, p.polls, p.i, c229, s233⟩ ::
              (attemptLoop env rest (h2 ++ [.status s233])).attempts,
            (attemptLoop env rest (h2 ++ [.status s233])).hist⟩ := by
      subst hs233 hh2 hh1 hc229 hp
      simp only [attemptLoop]
    -- the history before the query of line 233, piece by piece
    have hE1 : h1 = p.hist ++ (statusEvents c229) := by
      cases c229 <;> simp [← hh1, statusEvents]
    have hE2 : h2 = h1 ++ (if p.i = 20 ∨ c229 = some WlStatus.WL_CONNECT_FAILED
        then [Event.printf "Failed to connect to %s\n" [.str c.ssid]] else []) := by
      by_cases hq : p.i = 20 ∨ c229 = some WlStatus.WL_CONNECT_FAILED
      · simp [← hh2, hq]
      · simp [← hh2, hq]
    have hA1 : Answered env p.hist (statusEvents c229) := by
      cases c229 with
      | none => simp [Answered, statusEvents]
      | some s =>
        have hs : s = env.status p.hist := by
          by_cases h20 : p.i = 20
          · simp [h20] at hc229
          · simp only [h20, if_false, Option.some.injEq] at hc229
            exact hc229.symm
        simp [Answered, statusEvents, hs]
    have hA2 : Answered env h1 (if p.i = 20 ∨ c229 = some WlStatus.WL_CONNECT_FAILED
        then [Event.printf "Failed to connect to %s\n" [.str c.ssid]] else []) := by
      by_cases hq : p.i = 20 ∨ c229 = some WlStatus.WL_CONNECT_FAILED
      · simp [hq, Answered]
      · simp [hq, Answered]
    have hA3 : Answered env h2 [Event.status s233] := by
      simp [Answered, hs233]
    -- everything up to and including the query of line 233
    have hbody : h2 ++ [Event.status s233] = hist ++
        ([.printf "Trying %s\n" [.str c.ssid], .begin c.ssid c.password] ++
          pollEvents p.polls ++
          (statusEvents c229) ++
          (if p.i = 20 ∨ c229 = some WlStatus.WL_CONNECT_FAILED
            then [Event.printf "Failed to connect to %s\n" [.str c.ssid]] else []) ++
          [Event.status s233]) := by
      rw [hE2, hE1, hph]
      simp only [List.append_assoc]
    have hbodyA : Answered env hist
        ([.printf "Trying %s\n" [.str c.ssid], .begin c.ssid c.password] ++
          pollEvents p.polls ++
          (statusEvents c229) ++
          (if p.i = 20 ∨ c229 = some WlStatus.WL_CONNECT_FAILED
            then [Event.printf "Failed to connect to %s\n" [.str c.ssid]] else []) ++
          [Event.status s233]) := by
      refine Answered_append env _ hist _ (Answered_append env _ hist _
        (Answered_append env _ hist _ (Answered_append env _ hist _ (by simp [Answered]) hpa)
          ?_) ?_) ?_
      · have h := hA1
        rw [hph] at h
        simpa only [List.append_assoc] using h
      · have h := hA2
        rw [hE1, hph] at h
        simpa only [List.append_assoc] using h
      · have h := hA3
        rw [hE2, hE1, hph] at h
        simpa only [List.append_assoc] using h
    rw [hunf]
    by_cases hconn : s233 = WlStatus.WL_CONNECTED
    · rw [if_pos hconn]
      refine ⟨1, by simp, by simp, ?_, ?_, by simp, ?_, by simp, ?_⟩
      · show h2 ++ [Event.status s233] ++ _ = _
        rw [hbody]
        simp [Attempt.events, hconn]
      · show Answered env hist (List.flatMap [_] Attempt.events)
        have : List.flatMap [(⟨c, p.polls, p.i, c229, s233⟩ : Attempt)] Attempt.events =
            ([.printf "Trying %s\n" [.str c.ssid], .begin c.ssid c.password] ++
              pollEvents p.polls ++
              (statusEvents c229) ++
              (if p.i = 20 ∨ c229 = some WlStatus.WL_CONNECT_FAILED
                then [Event.printf "Failed to connect to %s\n" [.str c.ssid]] else []) ++
              [Event.status s233]) ++ [.printf "Connected to %s\n" [.str c.ssid]] := by
          simp [Attempt.events, hconn]
        rw [this]
        exact Answered_append env _ hist _ hbodyA (by simp [Answered])
      · intro _
        exact ⟨_, rfl, hconn⟩
      · intro a ha
        simp only [List.mem_singleton] at ha
        subst ha
        exact hfacts
    · rw [if_neg hconn]
      obtain ⟨k, hk, hmap, hhist, hans, hdrop, htrue, hfalse, hpf⟩ :=
        ih (h2 ++ [.status s233])
      have hev : Attempt.events ⟨c, p.polls, p.i, c229, s233⟩ =
          [.printf "Trying %s\n" [.str c.ssid], .begin c.ssid c.password] ++
            pollEvents p.polls ++
            (statusEvents c229) ++
            (if p.i = 20 ∨ c229 = some WlStatus.WL_CONNECT_FAILED
              then [Event.printf "Failed to connect to %s\n" [.str c.ssid]] else []) ++
            [Event.status s233] := by
        simp [Attempt.events, hconn]
      refine ⟨k + 1, by simp; omega, by simp [hmap], ?_, ?_, ?_, ?_, ?_, ?_⟩
      · show (attemptLoop env rest (h2 ++ [.status s233])).hist = _
        rw [hhist, List.flatMap_cons, hev, hbody]
        simp only [List.append_assoc]
      · show Answered env hist (List.flatMap (_ :: _) Attempt.events)
        rw [List.flatMap_cons, hev]
        refine Answered_append env _ hist _ hbodyA ?_
        rw [← hbody]
        exact hans
      · intro a ha
        show a.check233 ≠ WlStatus.WL_CONNECTED
        cases hatt : (attemptLoop env rest (h2 ++ [.status s233])).attempts with
        | nil => simp [hatt] at ha
        | cons b bs =>
          simp only [hatt, List.dropLast_cons₂, List.mem_cons] at ha
          rcases ha with rfl | ha
          · exact hconn
          · exact hdrop a (by rw [hatt]; exact ha)
      · intro hres
        obtain ⟨a, hlast, hac⟩ := htrue hres
        refine ⟨a, ?_, hac⟩
        show (_ :: (attemptLoop env rest (h2 ++ [.status s233])).attempts).getLast? = some a
        have hne : (attemptLoop env rest (h2 ++ [.status s233])).attempts ≠ [] := by
          intro h; simp [h] at hlast
        rw [getLast?_cons_ne_nil _ hne]
        exact hlast
      · intro hres
        obtain ⟨hk2, hall⟩ := hfalse hres
        refine ⟨by simp [hk2], ?_⟩
        intro a ha
        rcases List.mem_cons.mp ha with rfl | ha
        · exact hconn
        · exact hall a ha
      · intro a ha
        rcases List.mem_cons.mp ha with rfl | ha
        · exact hfacts
        · exact hpf a ha

theorem attemptLoop_false_iff_none_connected (env : Env) (cands : List Candidate)
    (hist : List Event) :
    (attemptLoop env cands hist).result = false ↔
      (attemptLoop env cands hist).attempts.map (fun a => a.candidate) = cands ∧
      ∀ a ∈ (attemptLoop env cands hist).attempts, a.check233 ≠ WlStatus.WL_CONNECTED := by
  obtain ⟨k, hk, hmap, -, -, -, htrue, hfalse, -⟩ := attemptLoop_spec env cands hist
  constructor
  · intro hres
    obtain ⟨hk2, hall⟩ := hfalse hres
    exact ⟨by rw [hmap, hk2, List.take_length], hall⟩
  · rintro ⟨-, hall⟩
    by_contra hres
    have hres : (attemptLoop env cands hist).result = true := by simpa using hres
    obtain ⟨a, hlast, hac⟩ := htrue hres
    exact hall a (List.mem_of_getLast?_eq_some hlast) hac

/-- C4, the claim is false: with a link that flickers, the first candidate reaches
connected status (its one poll returns `WL_CONNECTED`), the status query of line 233
then reports `WL_DISCONNECTED`, and the loop goes on: it calls `WiFi.begin` for the
second candidate and returns false. -/
theorem flicker_counterexample :
    (attemptLoop flickerEnv [⟨-50, "Hermes-IoT", "HermesIOT"⟩,
        ⟨-70, "WiFi-IoT-123", "TUDOMINUSCULO"⟩] []).attempts.map
      (fun a => (a.candidate.ssid, a.polls.getLast?, a.check233)) =
      [("Hermes-IoT", some .WL_CONNECTED, .WL_DISCONNECTED),
        ("WiFi-IoT-123", some .WL_DISCONNECTED, .WL_DISCONNECTED)] ∧
    beginsOf (attemptLoop flickerEnv [⟨-50, "Hermes-IoT", "HermesIOT"⟩,
        ⟨-70, "WiFi-IoT-123", "TUDOMINUSCULO"⟩] []).hist =
      [("Hermes-IoT", "HermesIOT"), ("WiFi-IoT-123", "TUDOMINUSCULO")] ∧
    (attemptLoop flickerEnv [⟨-50, "Hermes-IoT", "HermesIOT"⟩,
        ⟨-70, "WiFi-IoT-123", "TUDOMINUSCULO"⟩] []).result = false ∧
    ¬ (∀ a ∈ (attemptLoop flickerEnv [⟨-50, "Hermes-IoT", "HermesIOT"⟩,
          ⟨-70, "WiFi-IoT-123", "TUDOMINUSCULO"⟩] []).attempts, a.reachedConnected →
        (attemptLoop flickerEnv [⟨-50, "Hermes-IoT", "HermesIOT"⟩,
          ⟨-70, "WiFi-IoT-123", "TUDOMINUSCULO"⟩] []).result = true) := by
  refine ⟨by decide, by decide, by decide, ?_⟩
  unfold Attempt.reachedConnected
  decide

/-- C4 as amended.  For every candidate list and every behaviour of the status
query in which a candidate whose polling ended on connected status is still
reported connected by the query of line 233: the history grows by the calls of the
attempts made, every recorded status being the interface's answer; the attempts
are those of the first `k` candidates, each with exactly one `WiFi.begin`, in
order; as soon as a candidate reaches connected status the loop returns true: that
candidate is the last one attempted, none before it reached connected status, and
after its connected status only the log line follows, so no later candidate is
begun; the loop returns true exactly when a query of line 233 reports connected,
and when it returns false all candidates were attempted. -/
theorem attemptLoop_short_circuit (env : Env) (cands : List Candidate) (hist : List Event)
    (hheld : ConnectedHolds (attemptLoop env cands hist)) :
    ∃ (k : Nat),
      k ≤ cands.length ∧
      (attemptLoop env cands hist).attempts.map (fun a => a.candidate) = cands.take k ∧
      (attemptLoop env cands hist).hist =
        hist ++ (attemptLoop env cands hist).attempts.flatMap Attempt.events ∧
      Answered env hist ((attemptLoop env cands hist).attempts.flatMap Attempt.events) ∧
      beginsOf ((attemptLoop env cands hist).attempts.flatMap Attempt.events) =
        (cands.take k).map (fun c => (c.ssid, c.password)) ∧
      (∀ a ∈ (attemptLoop env cands hist).attempts.dropLast, ¬ a.reachedConnected) ∧
      (∀ a ∈ (attemptLoop env cands hist).attempts, a.reachedConnected →
        (attemptLoop env cands hist).result = true ∧
        (attemptLoop env cands hist).attempts.getLast? = some a ∧
        ∃ before, (attemptLoop env cands hist).attempts.flatMap Attempt.events =
          before ++ [Event.status WlStatus.WL_CONNECTED,
            Event.printf "Connected to %s\n" [.str a.candidate.ssid]]) ∧
      ((attemptLoop env cands hist).result = true ↔
        ∃ a ∈ (attemptLoop env cands hist).attempts, a.check233 = WlStatus.WL_CONNECTED) ∧
      ((attemptLoop env cands hist).result = false → k = cands.length) := by
  obtain ⟨k, hk, hmap, hhist, hans, hdrop, htrue, hfalse, -⟩ :=
    attemptLoop_spec env cands hist
  have hres_of : ∀ a ∈ (attemptLoop env cands hist).attempts,
      a.check233 = WlStatus.WL_CONNECTED → (attemptLoop env cands hist).result = true := by
    intro a ha hac
    by_contra hres
    have hres : (attemptLoop env cands hist).result = false := by simpa using hres
    exact (hfalse hres).2 a ha hac
  refine ⟨k, hk, hmap, hhist, hans, ?_, ?_, ?_, ⟨?_, ?_⟩, fun h => (hfalse h).1⟩
  · rw [beginsOf_flatMap_events, ← hmap, List.map_map]
    rfl
  · intro a ha hr
    exact hdrop a ha (hheld a (List.dropLast_subset _ ha) hr)
  · intro a ha hr
    have hac := hheld a ha hr
    have hres := hres_of a ha hac
    obtain ⟨b, hlast, hbc⟩ := htrue hres
    have hab : a = b := by
      obtain ⟨ys, hys⟩ := List.getLast?_eq_some_iff.mp hlast
      have hd : (attemptLoop env cands hist).attempts.dropLast = ys := by
        rw [hys, List.dropLast_concat]
      rw [hys] at ha
      rcases List.mem_append.mp ha with h | h
      · exact absurd hac (hdrop a (by rw [hd]; exact h))
      · simpa using h
    subst hab
    exact ⟨hres, hlast, events_of_last_connected _ a hlast hac⟩
  · intro h
    obtain ⟨a, hlast, hac⟩ := htrue h
    exact ⟨a, List.mem_of_getLast?_eq_some hlast, hac⟩
  · rintro ⟨a, ha, hac⟩
    exact hres_of a ha hac

theorem attemptLoop_short_circuit_witness :
    ConnectedHolds (attemptLoop promptEnv [⟨-50, "Hermes-IoT", "HermesIOT"⟩,
      ⟨-70, "WiFi-IoT-123", "TUDOMINUSCULO"⟩] []) ∧
    (attemptLoop promptEnv [⟨-50, "Hermes-IoT", "HermesIOT"⟩,
      ⟨-70, "WiFi-IoT-123", "TUDOMINUSCULO"⟩] []).result = true ∧
    beginsOf (attemptLoop promptEnv [⟨-50, "Hermes-IoT", "HermesIOT"⟩,
      ⟨-70, "WiFi-IoT-123", "TUDOMINUSCULO"⟩] []).hist = [("Hermes-IoT", "HermesIOT")] ∧
    ∃ (k : Nat),
      k ≤ 2 ∧
      (attemptLoop promptEnv [⟨-50, "Hermes-IoT", "HermesIOT"⟩,
        ⟨-70, "WiFi-IoT-123", "TUDOMINUSCULO"⟩] []).attempts.map (fun a => a.candidate) =
        ([⟨-50, "Hermes-IoT", "HermesIOT"⟩, ⟨-70, "WiFi-IoT-123", "TUDOMINUSCULO"⟩] :
          List Candidate).take k ∧
      beginsOf ((attemptLoop promptEnv [⟨-50, "Hermes-IoT", "HermesIOT"⟩,
        ⟨-70, "WiFi-IoT-123", "TUDOMINUSCULO"⟩] []).attempts.flatMap Attempt.events) =
        (([⟨-50, "Hermes-IoT", "HermesIOT"⟩, ⟨-70, "WiFi-IoT-123", "TUDOMINUSCULO"⟩] :
          List Candidate).take k).map (fun c => (c.ssid, c.password)) := by
  have hheld : ConnectedHolds (attemptLoop promptEnv [⟨-50, "Hermes-IoT", "HermesIOT"⟩,
      ⟨-70, "WiFi-IoT-123", "TUDOMINUSCULO"⟩] []) := by
    unfold ConnectedHolds Attempt.reachedConnected
    decide
  obtain ⟨k, hk, hmap, -, -, hbeg, -, -, -, -⟩ :=
    attemptLoop_short_circuit promptEnv
      [⟨-50, "Hermes-IoT", "HermesIOT"⟩, ⟨-70, "WiFi-IoT-123", "TUDOMINUSCULO"⟩] [] hheld
  exact ⟨hheld, by decide, by decide, k, hk, hmap, hbeg⟩

/-- C5, the claim is false: with a link that comes up just after the 20th poll,
the only candidate exhausts its poll budget (20 polls, none resolved, "Failed to
connect" is logged) and the round still returns true. -/
theorem poll_budget_counterexample :
    (attemptLoop lateEnv [⟨-50, "Hermes-IoT", "HermesIOT"⟩] []).result = true ∧
    (attemptLoop lateEnv [⟨-50, "Hermes-IoT", "HermesIOT"⟩] []).hist.drop 42 =
      [.printf "Failed to connect to %s\n" [.str "Hermes-IoT"], .status .WL_CONNECTED,
        .printf "Connected to %s\n" [.str "Hermes-IoT"]] ∧
    AllFailedOrTimedOut [⟨-50, "Hermes-IoT", "HermesIOT"⟩]
      (attemptLoop lateEnv [⟨-50, "Hermes-IoT", "HermesIOT"⟩] []) ∧
    ¬ ((attemptLoop lateEnv [⟨-50, "Hermes-IoT", "HermesIOT"⟩] []).result = false ↔
      AllFailedOrTimedOut [⟨-50, "Hermes-IoT", "HermesIOT"⟩]
        (attemptLoop lateEnv [⟨-50, "Hermes-IoT", "HermesIOT"⟩] [])) := by
  have h1 : (attemptLoop lateEnv [⟨-50, "Hermes-IoT", "HermesIOT"⟩] []).result = true := by
    decide
  have h2 : AllFailedOrTimedOut [⟨-50, "Hermes-IoT", "HermesIOT"⟩]
      (attemptLoop lateEnv [⟨-50, "Hermes-IoT", "HermesIOT"⟩] []) := by
    unfold AllFailedOrTimedOut Attempt.reachedFailed Attempt.exhausted
    decide
  refine ⟨h1, by decide, h2, ?_⟩
  intro h
  have := h.mpr h2
  rw [h1] at this
  exact Bool.noConfusion this

/-- C5 as amended.  For every candidate list and every behaviour of the status
query in which, for each attempted candidate, the query of line 233 reports
connected exactly when the candidate's last poll did: the attempt loop returns
false iff every candidate was attempted and either reached connect-failed status
or exhausted its budget of 20 polls without resolving; the polls are those of
`Attempt.events` (a `delay(500)` after each unresolved one), and every recorded
status is the interface's answer. -/
theorem attemptLoop_false_iff_all_failed (env : Env) (cands : List Candidate)
    (hist : List Event) (hagree : ConnectedAgrees (attemptLoop env cands hist)) :
    ((attemptLoop env cands hist).result = false ↔
      AllFailedOrTimedOut cands (attemptLoop env cands hist)) ∧
    (attemptLoop env cands hist).hist =
      hist ++ (attemptLoop env cands hist).attempts.flatMap Attempt.events ∧
    Answered env hist ((attemptLoop env cands hist).attempts.flatMap Attempt.events) := by
  obtain ⟨k, hk, hmap, hhist, hans, -, htrue, hfalse, hpf⟩ := attemptLoop_spec env cands hist
  refine ⟨⟨?_, ?_⟩, hhist, hans⟩
  · intro hres
    obtain ⟨hk2, hall⟩ := hfalse hres
    refine ⟨by rw [hmap, hk2, List.take_length], ?_⟩
    intro a ha
    rcases hpf a ha with ⟨-, -, hex⟩ | ⟨-, pre, s, hpolls, -, hs, -⟩
    · exact Or.inr hex
    · left
      rcases hs with hs | hs
      · show a.polls.getLast? = some WlStatus.WL_CONNECT_FAILED
        rw [hpolls, hs, List.getLast?_concat]
      · have hr : a.reachedConnected := by
          show a.polls.getLast? = some WlStatus.WL_CONNECTED
          rw [hpolls, hs, List.getLast?_concat]
        exact absurd ((hagree a ha).mpr hr) (hall a ha)
  · rintro ⟨-, hall⟩
    by_contra hres
    have hres : (attemptLoop env cands hist).result = true := by simpa using hres
    obtain ⟨a, hlast, hac⟩ := htrue hres
    have ha := List.mem_of_getLast?_eq_some hlast
    have hr : a.polls.getLast? = some WlStatus.WL_CONNECTED := (hagree a ha).mp hac
    rcases hall a ha with hf | ⟨-, hex⟩
    · have hf : a.polls.getLast? = some WlStatus.WL_CONNECT_FAILED := hf
      rw [hr] at hf
      exact WlStatus.noConfusion (Option.some.inj hf)
    · exact (hex _ (List.mem_of_getLast?_eq_some hr)).1 rfl

theorem attemptLoop_false_iff_all_failed_witness :
    ConnectedAgrees (attemptLoop baseEnv [⟨-50, "Hermes-IoT", "HermesIOT"⟩] []) ∧
    ((attemptLoop baseEnv [⟨-50, "Hermes-IoT", "HermesIOT"⟩] []).result = false ↔
      AllFailedOrTimedOut [⟨-50, "Hermes-IoT", "HermesIOT"⟩]
        (attemptLoop baseEnv [⟨-50, "Hermes-IoT", "HermesIOT"⟩] [])) :=
  ⟨by unfold ConnectedAgrees Attempt.reachedConnected; decide,
    (attemptLoop_false_iff_all_failed baseEnv [⟨-50, "Hermes-IoT", "HermesIOT"⟩] []
      (by unfold ConnectedAgrees Attempt.reachedConnected; decide)).1⟩

/-! ## the tick (source lines 63-170) -/

theorem countP_eq_zero_of_isLog (q : Event → Bool) (hq : ∀ e, e.isLog = true → q e = false)
    (evs : List Event) (h : ∀ e ∈ evs, e.isLog = true) : evs.countP q = 0 := by
  rw [List.countP_eq_zero]
  intro e he
  simp [hq e (h e he)]

theorem readCalibration_hist (env : Env) (st : State) :
    ∃ logs : List Event,
      (readCalibration env st).hist = st.hist ++
        ([.println "Reading calibration",
          .getJSON (devicePath st "calibragem")
            (env.getJSON (st.hist ++ [.println "Reading calibration"])
              (devicePath st "calibragem")).1] ++ logs) ∧
      (∀ e ∈ logs, e.isLog = true) := by
  unfold readCalibration
  dsimp only
  generalize env.getJSON (st.hist ++ [.println "Reading calibration"])
    (devicePath st "calibragem") = r
  rcases r with ⟨ok, data⟩
  cases ok with
  | false =>
    exact ⟨[.printf "Failed to read calibration. Reason: %s. Path = %s\n"
      [.str data.errorReason, .str (devicePath st "calibragem")]], by simp, by simp [Event.isLog]⟩
  | true =>
    cases hlo : data.jsonObject.lookup "baixo" with
    | none =>
      cases hhi : data.jsonObject.lookup "alto" with
      | none =>
        exact ⟨[.printf "Path = %s; Payload = %s\n" [.str data.dataPath, .str data.payload],
          .println "Failed to read calibration low", .println "Failed to read calibration high",
          .printf "Calibration: %.2f - %.2f\n"
            [.float st.calibration.low, .float st.calibration.high]],
          by simp [hlo, hhi], by simp [Event.isLog]⟩
      | some v =>
        exact ⟨[.printf "Path = %s; Payload = %s\n" [.str data.dataPath, .str data.payload],
          .println "Failed to read calibration low",
          .printf "Calibration: %.2f - %.2f\n" [.float st.calibration.low, .float v]],
          by simp [hlo, hhi], by simp [Event.isLog]⟩
    | some u =>
      cases hhi : data.jsonObject.lookup "alto" with
      | none =>
        exact ⟨[.printf "Path = %s; Payload = %s\n" [.str data.dataPath, .str data.payload],
          .println "Failed to read calibration high",
          .printf "Calibration: %.2f - %.2f\n" [.float u, .float st.calibration.high]],
          by simp [hlo, hhi], by simp [Event.isLog]⟩
      | some v =>
        exact ⟨[.printf "Path = %s; Payload = %s\n" [.str data.dataPath, .str data.payload],
          .printf "Calibration: %.2f - %.2f\n" [.float u, .float v]],
          by simp [hlo, hhi], by simp [Event.isLog]⟩

theorem publishReadings_outcome (env : Env) (st : State) :
    ∃ (r : Int) (ok : Bool) (log : Event),
      log.isLog = true ∧
      publishReadings env st =
        (if ok then Outcome.returned else Outcome.undefinedBehaviour)
          { st with hist := st.hist ++
            [.println "Publishing readings", .rand r,
              .setFloat (devicePath st "umidade")
                (frandom env.RAND_MAX r st.calibration.low st.calibration.high) ok, log] } := by
  unfold publishReadings
  dsimp only
  generalize env.rand (st.hist ++ [.println "Publishing readings"]) = r
  generalize env.setFloat (st.hist ++ [.println "Publishing readings"] ++ [.rand r])
    (devicePath st "umidade")
    (frandom env.RAND_MAX r st.calibration.low st.calibration.high) = w
  rcases w with ⟨ok, obj⟩
  cases ok with
  | false =>
    exact ⟨r, false, .printf "Failed to publish reading. Reason: %s\n"
      [.float (frandom env.RAND_MAX r st.calibration.low st.calibration.high),
        .str obj.errorReason], rfl, by simp⟩
  | true =>
    exact ⟨r, true, .printf "Path = %s; Reading: %.2f\n"
      [.str obj.dataPath,
        .float (frandom env.RAND_MAX r st.calibration.low st.calibration.high)], rfl, by simp⟩

theorem setupFirebase_failed_hist (env : Env) (st : State)
    (hfail : (setupFirebase env st).1 = false) :
    (setupFirebase env st).2.hist = st.hist ++ [.println "Setting up Firebase",
      .macAddress (env.macAddress (st.hist ++ [.println "Setting up Firebase"])),
      .signUp false, .println "Sign up failed"] := by
  unfold setupFirebase at hfail ⊢
  dsimp only at hfail ⊢
  generalize env.macAddress (st.hist ++ [.println "Setting up Firebase"]) = mac at hfail ⊢
  generalize env.signUp (st.hist ++ [.println "Setting up Firebase"] ++ [.macAddress mac])
    = ok at hfail ⊢
  cases ok with
  | false => simp
  | true => simp at hfail

theorem loop_failed_write_undefined :
    ∃ st', loop handshakeFailEnv 1 State.init = some (.undefinedBehaviour st') ∧
      ranReadCalibration st'.hist = true ∧ ranPublishReadings st'.hist = true ∧
      st'.hist.getLast? = some (.printf "Failed to publish reading. Reason: %s\n"
        [.float (.fin 0), .str "token is not ready"]) :=
  ⟨_, rfl, by decide, by decide, by decide!⟩

/-- C6, the claim is false: the link comes up, the sign-up is refused
(`setupFirebase` returns false), and the same tick still runs `readCalibration` and
`publishReadings` before it ends with `delay(1000)`. -/
theorem handshake_failure_counterexample :
    ∃ s1 st', setupWifi refusedSignUpEnv 1 State.init = some (true, s1) ∧
      (setupFirebase refusedSignUpEnv s1).1 = false ∧
      loop refusedSignUpEnv 1 State.init = some (.returned st') ∧
      ranReadCalibration (st'.hist.drop s1.hist.length) = true ∧
      ranPublishReadings (st'.hist.drop s1.hist.length) = true ∧
      st'.hist.getLast? = some (.delay 1000) :=
  ⟨_, _, rfl, by decide, rfl, by decide, by decide, by decide⟩

/-- C6 as amended.  In a tick in which `setupWifi` reports a new connection and
`setupFirebase` fails, `Firebase.begin` is not called, and `readCalibration` and
then `publishReadings` are executed all the same, each making its one remote
request; when the write of the reading is reported successful the tick returns and
its last call is `delay(1000)`. -/
theorem loop_after_failed_handshake (env : Env) (fuel : Nat) (st s1 : State)
    (hwifi : setupWifi env fuel st = some (true, s1))
    (hfail : (setupFirebase env s1).1 = false) :
    ∃ (out : Outcome) (evs : List Event),
      loop env fuel st = some out ∧
      out.state.hist = s1.hist ++ evs ∧
      Event.firebaseBegin ∉ evs ∧
      ranReadCalibration evs = true ∧
      ranPublishReadings evs = true ∧
      (∃ a b c, evs = a ++ [.println "Reading calibration"] ++ b ++
        [.println "Publishing readings"] ++ c) ∧
      evs.countP Event.isGetJSON = 1 ∧
      evs.countP Event.isSetFloat = 1 ∧
      ((∃ path value, Event.setFloat path value true ∈ evs) →
        (∃ st', out = .returned st') ∧ evs.getLast? = some (.delay 1000)) := by
  obtain ⟨s2, hs2⟩ : ∃ s2, s2 = (setupFirebase env s1).2 := ⟨_, rfl⟩
  have hs2h : s2.hist = s1.hist ++ [.println "Setting up Firebase",
      .macAddress (env.macAddress (s1.hist ++ [.println "Setting up Firebase"])),
      .signUp false, .println "Sign up failed"] := by
    rw [hs2]; exact setupFirebase_failed_hist env s1 hfail
  obtain ⟨logs, hrh, hlogs⟩ := readCalibration_hist env s2
  obtain ⟨r, ok, log, hlog, hpub⟩ := publishReadings_outcome env (readCalibration env s2)
  have hloop : loop env fuel st =
      match publishReadings env (readCalibration env s2) with
      | .returned st => some (.returned { st with hist := st.hist ++ [.delay 1000] })
      | .undefinedBehaviour st => some (.undefinedBehaviour st) := by
    unfold loop
    rw [hwifi]
    simp [hs2]
  have hnb1 : Event.firebaseBegin ∉ logs := by
    intro h
    have := hlogs _ h
    simp [Event.isLog] at this
  have hnb2 : ¬ Event.firebaseBegin = log := by
    intro h
    rw [← h] at hlog
    simp [Event.isLog] at hlog
  have hg0 := countP_eq_zero_of_isLog Event.isGetJSON
    (by intro e he; cases e <;> simp_all [Event.isLog, Event.isGetJSON]) logs hlogs
  have hg1 : log.isGetJSON = false := by
    cases log <;> simp_all [Event.isLog, Event.isGetJSON]
  have hf0 := countP_eq_zero_of_isLog Event.isSetFloat
    (by intro e he; cases e <;> simp_all [Event.isLog, Event.isSetFloat]) logs hlogs
  have hf1 : log.isSetFloat = false := by
    cases log <;> simp_all [Event.isLog, Event.isSetFloat]
  cases ok with
  | true =>
    refine ⟨.returned { readCalibration env s2 with
        hist := (readCalibration env s2).hist ++
          [.println "Publishing readings", .rand r,
            .setFloat (devicePath (readCalibration env s2) "umidade")
              (frandom env.RAND_MAX r (readCalibration env s2).calibration.low
                (readCalibration env s2).calibration.high) true, log] ++ [.delay 1000] },
      [.println "Setting up Firebase",
        .macAddress (env.macAddress (s1.hist ++ [.println "Setting up Firebase"])),
        .signUp false, .println "Sign up failed"] ++
      ([.println "Reading calibration",
        .getJSON (devicePath s2 "calibragem")
          (env.getJSON (s2.hist ++ [.println "Reading calibration"])
            (devicePath s2 "calibragem")).1] ++ logs) ++
      [.println "Publishing readings", .rand r,
        .setFloat (devicePath (readCalibration env s2) "umidade")
          (frandom env.RAND_MAX r (readCalibration env s2).calibration.low
            (readCalibration env s2).calibration.high) true, log] ++ [.delay 1000],
      ?_, ?_, ?_, ?_, ?_, ?_, ?_, ?_, ?_⟩
    · rw [hloop, hpub]
      rfl
    · show (readCalibration env s2).hist ++ _ ++ [.delay 1000] = _
      rw [hrh, hs2h]
      simp
    · simp [hnb1, hnb2]
    · simp [ranReadCalibration]
    · simp [ranPublishReadings]
    · exact ⟨[.println "Setting up Firebase",
          .macAddress (env.macAddress (s1.hist ++ [.println "Setting up Firebase"])),
          .signUp false, .println "Sign up failed"],
        [.getJSON (devicePath s2 "calibragem")
          (env.getJSON (s2.hist ++ [.println "Reading calibration"])
            (devicePath s2 "calibragem")).1] ++ logs,
        [.rand r,
          .setFloat (devicePath (readCalibration env s2) "umidade")
            (frandom env.RAND_MAX r (readCalibration env s2).calibration.low
              (readCalibration env s2).calibration.high) true, log, .delay 1000],
        by simp⟩
    · simp only [List.countP_append, List.countP_cons, List.countP_nil, hg0, hg1]
      simp [Event.isGetJSON]
    · simp only [List.countP_append, List.countP_cons, List.countP_nil, hf0, hf1]
      simp [Event.isSetFloat]
    · intro _
      exact ⟨⟨_, rfl⟩, by rw [List.getLast?_concat]⟩
  | false =>
    refine ⟨.undefinedBehaviour { readCalibration env s2 with
        hist := (readCalibration env s2).hist ++
          [.println "Publishing readings", .rand r,
            .setFloat (devicePath (readCalibration env s2) "umidade")
              (frandom env.RAND_MAX r (readCalibration env s2).calibration.low
                (readCalibration env s2).calibration.high) false, log] },
      [.println "Setting up Firebase",
        .macAddress (env.macAddress (s1.hist ++ [.println "Setting up Firebase"])),
        .signUp false, .println "Sign up failed"] ++
      ([.println "Reading calibration",
        .getJSON (devicePath s2 "calibragem")
          (env.getJSON (s2.hist ++ [.println "Reading calibration"])
            (devicePath s2 "calibragem")).1] ++ logs) ++
      [.println "Publishing readings", .rand r,
        .setFloat (devicePath (readCalibration env s2) "umidade")
          (frandom env.RAND_MAX r (readCalibration env s2).calibration.low
            (readCalibration env s2).calibration.high) false, log],
      ?_, ?_, ?_, ?_, ?_, ?_, ?_, ?_, ?_⟩
    · rw [hloop, hpub]
      rfl
    · show (readCalibration env s2).hist ++ _ = _
      rw [hrh, hs2h]
      simp
    · simp [hnb1, hnb2]
    · simp [ranReadCalibration]
    · simp [ranPublishReadings]
    · exact ⟨[.println "Setting up Firebase",
          .macAddress (env.macAddress (s1.hist ++ [.println "Setting up Firebase"])),
          .signUp false, .println "Sign up failed"],
        [.getJSON (devicePath s2 "calibragem")
          (env.getJSON (s2.hist ++ [.println "Reading calibration"])
            (devicePath s2 "calibragem")).1] ++ logs,
        [.rand r,
          .setFloat (devicePath (readCalibration env s2) "umidade")
            (frandom env.RAND_MAX r (readCalibration env s2).calibration.low
              (readCalibration env s2).calibration.high) false, log],
        by simp⟩
    · simp only [List.countP_append, List.countP_cons, List.countP_nil, hg0, hg1]
      simp [Event.isGetJSON]
    · simp only [List.countP_append, List.countP_cons, List.countP_nil, hf0, hf1]
      simp [Event.isSetFloat]
    · rintro ⟨path, value, hmem⟩
      exfalso
      have hl1 : Event.setFloat path value true ∉ logs := by
        intro h
        have := hlogs _ h
        simp [Event.isLog] at this
      have hl2 : ¬ Event.setFloat path value true = log := by
        intro h
        rw [← h] at hlog
        simp [Event.isLog] at hlog
      simp [hl1, hl2] at hmem

theorem loop_after_failed_handshake_witness :
    ∃ s1, setupWifi refusedSignUpEnv 1 State.init = some (true, s1) ∧
      (setupFirebase refusedSignUpEnv s1).1 = false ∧
      ∃ (out : Outcome) (evs : List Event),
        loop refusedSignUpEnv 1 State.init = some out ∧
        out.state.hist = s1.hist ++ evs ∧
        Event.firebaseBegin ∉ evs ∧
        ranReadCalibration evs = true ∧
        ranPublishReadings evs = true ∧
        (∃ a b c, evs = a ++ [.println "Reading calibration"] ++ b ++
          [.println "Publishing readings"] ++ c) ∧
        evs.countP Event.isGetJSON = 1 ∧
        evs.countP Event.isSetFloat = 1 ∧
        ((∃ path value, Event.setFloat path value true ∈ evs) →
          (∃ st', out = .returned st') ∧ evs.getLast? = some (.delay 1000)) :=
  ⟨_, rfl, by decide,
    loop_after_failed_handshake refusedSignUpEnv 1 State.init _ rfl (by decide)⟩

/-- C7.  A failed remote read leaves the calibration unchanged; a successful read
whose payload has `baixo` and not `alto` sets `low` to the payload value and leaves
`high` unchanged; one whose payload has `alto` and not `baixo` sets `high` and
leaves `low` unchanged. -/
theorem readCalibration_frame (env : Env) (st : State) :
    ((env.getJSON (st.hist ++ [.println "Reading calibration"])
        (devicePath st "calibragem")).1 = false →
      (readCalibration env st).calibration = st.calibration) ∧
    (∀ v : F32,
      (env.getJSON (st.hist ++ [.println "Reading calibration"])
        (devicePath st "calibragem")).1 = true →
      (env.getJSON (st.hist ++ [.println "Reading calibration"])
        (devicePath st "calibragem")).2.jsonObject.lookup "baixo" = some v →
      (env.getJSON (st.hist ++ [.println "Reading calibration"])
        (devicePath st "calibragem")).2.jsonObject.lookup "alto" = none →
      (readCalibration env st).calibration = ⟨v, st.calibration.high⟩) ∧
    (∀ v : F32,
      (env.getJSON (st.hist ++ [.println "Reading calibration"])
        (devicePath st "calibragem")).1 = true →
      (env.getJSON (st.hist ++ [.println "Reading calibration"])
        (devicePath st "calibragem")).2.jsonObject.lookup "alto" = some v →
      (env.getJSON (st.hist ++ [.println "Reading calibration"])
        (devicePath st "calibragem")).2.jsonObject.lookup "baixo" = none →
      (readCalibration env st).calibration = ⟨st.calibration.low, v⟩) := by
  refine ⟨?_, ?_, ?_⟩
  · intro h
    simp [readCalibration, h]
  · intro v hok hlo hhi
    simp [readCalibration, hok, hlo, hhi]
  · intro v hok hhi hlo
    simp [readCalibration, hok, hlo, hhi]

theorem readCalibration_frame_witness :
    (readCalibration lowOnlyEnv State.init).calibration = ⟨.fin (1 / 4), .fin 1⟩ ∧
    (readCalibration highOnlyEnv State.init).calibration = ⟨.fin 0, .fin (3 / 4)⟩ ∧
    (readCalibration baseEnv State.init).calibration = ⟨.fin 0, .fin 1⟩ :=
  ⟨(readCalibration_frame lowOnlyEnv State.init).2.1 (.fin (1 / 4)) rfl rfl rfl,
    (readCalibration_frame highOnlyEnv State.init).2.2 (.fin (3 / 4)) rfl rfl rfl,
    (readCalibration_frame baseEnv State.init).1 rfl⟩

/-- C9.  When the interface reports it is already connected, `setupWifi` returns
false at once, whatever the retry budget: the only call made is the query
`WiFi.isConnected()` itself (no mode change, no scan, no `WiFi.begin`), and the
calibration and the session are untouched. -/
theorem setupWifi_fast_path (env : Env) (fuel : Nat) (st : State)
    (h : env.isConnected st.hist = true) :
    setupWifi env fuel st = some (false, { st with hist := st.hist ++ [.isConnected true] }) := by
  simp [setupWifi, h]

theorem setupWifi_fast_path_witness :
    connectedEnv.isConnected State.init.hist = true ∧
    setupWifi connectedEnv 0 State.init =
      some (false, { State.init with hist := State.init.hist ++ [.isConnected true] }) :=
  ⟨rfl, setupWifi_fast_path connectedEnv 0 State.init rfl⟩

/-- C8, evaluated at the failing input: with calibration `low = 0`, `high = 61` and
`rand()` returning `RAND_MAX = 2147483647`, `frandom` yields `61 + 2^-18`, which is
above `high`, and `publishReadings` writes that value.  (Where `RAND_MAX` is 32767
the same happens for `low = 0`, `high = 15`.) -/
theorem reading_exceeds_high :
    F32.le (.fin 0) (.fin 61) = true ∧
    F32.le (frandom 32767 32767 (.fin 0) (.fin 15)) (.fin 15) = false ∧
    frandom 2147483647 2147483647 (.fin 0) (.fin 61) = .fin (61 + 1 / 262144) ∧
    F32.le (frandom 2147483647 2147483647 (.fin 0) (.fin 61)) (.fin 61) = false ∧
    Event.setFloat "/dispositivos//umidade" (.fin (61 + 1 / 262144)) true ∈
      (publishReadings maxRandEnv
        { State.init with calibration := ⟨.fin 0, .fin 61⟩ }).state.hist := by
  refine ⟨by decide!, by decide!, by decide!, by decide!, by decide!⟩

end Firmware
